import Mathlib

/-!
Verification of the resilient API client core of `raindrop-cli`.

The repository ships several near-duplicate revisions of the client:

* `src/unnamed/part_001` — the revision with the 60 s timeout guard, the
  attempt-counting retry loop and `assertDefined` (the file most claims cite);
* the newest revision (embedded after the separator in
  `skills/raindrop/README.md`), which additionally validates every response
  through the zod schemas of `src/src/api/schemas.ts` via `parseResponse`.

Both revisions share the same `request` retry loop verbatim, so a single
model of that loop serves both; the zod schemas and the schema-validating
facade are modelled separately.  Transport effects (`fetch`, `JSON.parse` of
the body, `Math.random`) are supplied as oracles; everything downstream of
them is translated from the source.
-/

namespace Raindrop

/-- JSON values as produced by `JSON.parse`: no `undefined`, objects are
ordered key/value lists.  Numbers are modelled as integers — every numeric
check in the schemas only inspects the type tag and never the fractional
part of the value. -/
inductive Json where
  | null : Json
  | bool (b : Bool) : Json
  | num (n : Int) : Json
  | str (s : String) : Json
  | arr (elems : List Json) : Json
  | obj (fields : List (String × Json)) : Json
deriving Repr

/-- First binding of a key in a JS object literal model (JS property access
returns the last duplicate, but no object in the code carries duplicates, and
`JSON.parse` keeps one binding per key). -/
def jLookup : List (String × Json) → String → Option Json
  | [], _ => none
  | (k, v) :: rest, key => if k = key then some v else jLookup rest key

/-- JS property access `j.k`: `undefined` (`none`) on non-objects and missing
keys. -/
def Json.get (j : Json) (key : String) : Option Json :=
  match j with
  | .obj fields => jLookup fields key
  | _ => none

/-- JS truthiness of a JSON value (`null`, `false`, `0`, `""` are falsy). -/
def Json.truthy : Json → Bool
  | .null => false
  | .bool b => b
  | .num n => n != 0
  | .str s => s != ""
  | .arr _ => true
  | .obj _ => true

/-- String form a JSON value takes inside a JS template literal. -/
def Json.display : Json → String
  | .null => "null"
  | .bool b => if b then "true" else "false"
  | .num n => toString n
  | .str s => s
  | .arr _ => "[array]"
  | .obj _ => "[object Object]"

/-- A JS `number` that may be `NaN` (finite values are exact rationals). -/
inductive JsNum where
  | nan : JsNum
  | val (q : ℚ) : JsNum
deriving DecidableEq, Repr

/-- `Math.max` on two JS numbers: `NaN` absorbs. -/
def jsMax : JsNum → JsNum → JsNum
  | .nan, _ => .nan
  | _, .nan => .nan
  | .val a, .val b => .val (max a b)

/-- Multiplication of a JS number by a finite constant: `NaN` propagates. -/
def jsScale (x : JsNum) (c : ℚ) : JsNum :=
  match x with
  | .nan => .nan
  | .val q => .val (q * c)

/-- JS whitespace skipped by `parseInt`. -/
def jsIsSpace (c : Char) : Bool :=
  c = ' ' || c = '\t' || c = '\n' || c = '\r'

/-- Numeric value of a nonempty run of decimal digits. -/
def digitsVal (ds : List Char) : ℕ :=
  ds.foldl (fun acc c => 10 * acc + (c.toNat - 48)) 0

/-- Sign-and-digits tail of `Number.parseInt(s, 10)`: longest digit run, `NaN`
when there is none. -/
def jsParseIntCore (sign : Int) (cs : List Char) : JsNum :=
  let ds := cs.takeWhile Char.isDigit
  if ds.isEmpty then .nan else .val ((sign * (digitsVal ds : Int) : Int) : ℚ)

/-- `Number.parseInt(s, 10)`: skip leading whitespace, optional sign, longest
digit run; `NaN` if no digit follows. -/
def jsParseInt (s : String) : JsNum :=
  match s.data.dropWhile jsIsSpace with
  | '-' :: rest => jsParseIntCore (-1) rest
  | '+' :: rest => jsParseIntCore 1 rest
  | cs => jsParseIntCore 1 cs

/-- `calculateBackoff(attempt, baseMs = 1000, maxMs = 30000)` from
`src/unnamed/part_001` lines 37–41, with the `Math.random() * 1000` draw
passed in as `jitter`. -/
def calculateBackoff (attempt : ℕ) (baseMs : ℚ) (maxMs : ℚ) (jitter : ℚ) : ℚ :=
  min (baseMs * 2 ^ attempt + jitter) maxMs

/-- `RaindropError(message, statusCode = 500, hint?)`
(`src/unnamed/part_001` lines 26–35). -/
structure RaindropError where
  message : String
  statusCode : ℕ := 500
  hint : Option String := none
deriving DecidableEq, Repr

/-- Outcome of one `fetch` call, as an oracle:
`success status retryAfter bodyText bodyJson` is an HTTP response
(`retryAfter` = the `Retry-After` header, `bodyText` = `response.text()`,
`bodyJson` = result of `response.json()` / `JSON.parse`, `.error` carrying the
string form the thrown parse error takes in a template literal);
`abort` is the 60 s guard firing (an `AbortError`); `netfail e` is any other
transport rejection whose template-literal string form is `e`. -/
inductive FetchOutcome where
  | success (status : ℕ) (retryAfter : Option String) (bodyText : String)
      (bodyJson : Except String Json) : FetchOutcome
  | abort : FetchOutcome
  | netfail (err : String) : FetchOutcome

/-- `RaindropAPI.MAX_RETRIES` (`src/unnamed/part_001` line 52). -/
def MAX_RETRIES : ℕ := 3

/-- `RaindropAPI.REQUEST_TIMEOUT_MS` (`src/unnamed/part_001` line 53). -/
def REQUEST_TIMEOUT_MS : ℕ := 60000

/-- `response.headers.get("Retry-After") || "10"`: a missing header is `null`
and an empty header string is falsy, so both fall back to `"10"`. -/
def retryAfterHeader (ra : Option String) : String :=
  match ra with
  | none => "10"
  | some s => if s = "" then "10" else s

/-- Error-body handling of the non-429 4xx branch
(`src/unnamed/part_001` lines 192–196): take `response.text()`, try
`JSON.parse`, use a truthy `errorMessage` field, else the raw text.  Property
access on a non-object parse result yields `undefined` (or throws inside the
same `try`), so those cases also keep the raw text. -/
def extractErrorDetail (text : String) (parsed : Except String Json) : String :=
  match parsed with
  | .error _ => text
  | .ok j =>
    match j.get "errorMessage" with
    | none => text
    | some v => if v.truthy then v.display else text

/-- The status-specific hints of `src/unnamed/part_001` lines 198–205. -/
def hintFor (status : ℕ) : Option String :=
  if status = 401 then some "Authentication failed. Try running \x27raindrop login\x27 again."
  else if status = 404 then some "The requested resource was not found. Verify the ID is correct."
  else if status = 400 then some "Invalid request. Check your input parameters."
  else none

/-- Result of the retry loop: number of `fetch` calls performed, the values
passed to `Bun.sleep` between attempts, and the returned envelope or the
thrown `RaindropError`. -/
structure LoopResult where
  calls : ℕ
  sleeps : List JsNum
  outcome : Except RaindropError Json

/-- The `while (attempt < MAX_RETRIES)` loop of `RaindropAPI.request`
(`src/unnamed/part_001` lines 137–237), fuel-indexed; `request` enters it with
fuel `MAX_RETRIES`, which the attempt counter can never outrun.  `fuel = 0`
and the failed loop guard both land on the defensive
"Maximum retries exceeded" fallback of line 237.  The `i`-th `fetch` sees
`outcomes i`; the one `Math.random()` draw of a `calculateBackoff` call in
iteration `i` is `jitter i`. -/
def requestLoop (outcomes : ℕ → FetchOutcome) (jitter : ℕ → ℚ) :
    ℕ → ℕ → ℕ → List JsNum → LoopResult
  | 0, _, calls, sleeps =>
    ⟨calls, sleeps, .error (RaindropError.mk "Maximum retries exceeded" 504 none)⟩
  | fuel + 1, attempt, calls, sleeps =>
    if attempt < MAX_RETRIES then
      match outcomes calls with
      | .success status retryAfter bodyText bodyJson =>
        if status = 429 then
          let a := attempt + 1
          let suggested := jsParseInt (retryAfterHeader retryAfter)
          let backoff := jsMax (jsScale suggested 1000)
            (.val (calculateBackoff a 1000 30000 (jitter calls)))
          if MAX_RETRIES ≤ a then
            ⟨calls + 1, sleeps, .error (RaindropError.mk "Rate limit exceeded. Maximum retries reached."
              429 (some "Wait a few minutes before trying again."))⟩
          else
            requestLoop outcomes jitter fuel a (calls + 1) (sleeps ++ [backoff])
        else if 500 ≤ status then
          let a := attempt + 1
          if MAX_RETRIES ≤ a then
            ⟨calls + 1, sleeps, .error (RaindropError.mk ("Server Error: " ++ toString status)
              status (some "The Raindrop.io server is experiencing issues. Try again later."))⟩
          else
            requestLoop outcomes jitter fuel a (calls + 1)
              (sleeps ++ [.val (calculateBackoff a 1000 30000 (jitter calls))])
        else if ¬(200 ≤ status ∧ status ≤ 299) then
          ⟨calls + 1, sleeps, .error (RaindropError.mk
              ("API Error " ++ toString status ++ ": " ++ extractErrorDetail bodyText bodyJson)
              status (hintFor status))⟩
        else
          match bodyJson with
          | .ok j => ⟨calls + 1, sleeps, .ok j⟩
          | .error e =>
            let a := attempt + 1
            if MAX_RETRIES ≤ a then
              ⟨calls + 1, sleeps, .error (RaindropError.mk ("Network Error: " ++ e) 503
                (some "Check your internet connection and try again."))⟩
            else
              requestLoop outcomes jitter fuel a (calls + 1)
                (sleeps ++ [.val (calculateBackoff a 1000 30000 (jitter calls))])
      | .abort =>
        ⟨calls + 1, sleeps, .error (RaindropError.mk
            ("Request timeout after " ++ toString REQUEST_TIMEOUT_MS ++ "ms")
            504 (some "The request took too long. Try again later."))⟩
      | .netfail e =>
        let a := attempt + 1
        if MAX_RETRIES ≤ a then
          ⟨calls + 1, sleeps, .error (RaindropError.mk ("Network Error: " ++ e) 503
            (some "Check your internet connection and try again."))⟩
        else
          requestLoop outcomes jitter fuel a (calls + 1)
            (sleeps ++ [.val (calculateBackoff a 1000 30000 (jitter calls))])
    else
      ⟨calls, sleeps, .error (RaindropError.mk "Maximum retries exceeded" 504 none)⟩

/-- A `logger.log` call in the dry-run branch: either a plain line or the
`Payload:` line, the latter kept as the redacted field list instead of its
`JSON.stringify` rendering. -/
inductive LogEvent where
  | line (msg : String) : LogEvent
  | payload (fields : List (String × Json)) : LogEvent

/-- Substring test, modelling JS `String.prototype.includes`. -/
def strContains (s pat : String) : Bool :=
  s.data.tails.any (fun t => pat.data.isPrefixOf t)

/-- The redaction filter of `src/unnamed/part_001` lines 120–122: drop every
key whose lowercase form contains `"token"`. -/
def keyIsToken (k : String) : Bool :=
  strContains k.toLower "token"

/-- `RaindropAPI.getDryRunResponse` (`src/unnamed/part_001` lines 68–110). -/
def dryRunResponse (method path : String) : Json :=
  if method = "DELETE" then
    .obj [("result", .bool true)]
  else if path = "/user" then
    .obj [("result", .bool true),
          ("user", .obj [("_id", .num 0), ("fullName", .str "Dry Run User")])]
  else if strContains path "/tags" then
    .obj [("result", .bool true), ("items", .arr [])]
  else if strContains path "/collections" || strContains path "/collection" then
    .obj [("result", .bool true),
          ("item", .obj [("_id", .num 0), ("title", .str "Dry Run Collection"), ("count", .num 0)]),
          ("items", .arr [])]
  else if strContains path "/raindrop" then
    .obj [("result", .bool true),
          ("item", .obj [("_id", .num 0), ("title", .str "Dry Run Item"),
                         ("link", .str "http://dryrun.com"), ("tags", .arr [])]),
          ("items", .arr [])]
  else
    .obj [("result", .bool true), ("item", .obj [("_id", .num 0)]), ("items", .arr [])]

/-- Trace of one `RaindropAPI.request` call. -/
structure ReqResult where
  calls : ℕ
  sleeps : List JsNum
  logs : List LogEvent
  outcome : Except RaindropError Json

/-- `RaindropAPI.request` (`src/unnamed/part_001` lines 112–238): the dry-run
interceptor for mutating verbs, else the retry loop.  `body` is
`options.json` (every body the facade passes is an object literal, hence
truthy).  URL building from `options.params` has no observable effect beyond
the transport oracle and is not tracked. -/
def request (dryRun : Bool) (method path : String) (body : Option (List (String × Json)))
    (outcomes : ℕ → FetchOutcome) (jitter : ℕ → ℚ) : ReqResult :=
  if dryRun && (method = "POST" || method = "PUT" || method = "DELETE") then
    let logs := [LogEvent.line ("[DRY RUN] " ++ method ++ " " ++ path)] ++
      (match body with
       | some fields => [LogEvent.payload (fields.filter (fun kv => !keyIsToken kv.1))]
       | none => [])
    ⟨0, [], logs, .ok (dryRunResponse method path)⟩
  else
    let lr := requestLoop outcomes jitter MAX_RETRIES 0 0 []
    ⟨lr.calls, lr.sleeps, [], lr.outcome⟩

/-- `assertDefined` (`src/unnamed/part_001` lines 43–48); its argument is a JS
field access, so `none` is `undefined` and `some .null` is an explicit null —
both rejected by `value === undefined || value === null`. -/
def assertDefined (value : Option Json) (context : String) : Except RaindropError Json :=
  match value with
  | none => .error (RaindropError.mk ("Unexpected empty response: " ++ context) 500 none)
  | some .null => .error (RaindropError.mk ("Unexpected empty response: " ++ context) 500 none)
  | some v => .ok v

/-- Trace and result of one facade operation. -/
structure OpResult (α : Type) where
  calls : ℕ
  sleeps : List JsNum
  logs : List LogEvent
  result : Except RaindropError α

/-- Run the continuation a facade method applies to the awaited envelope. -/
def afterRequest {α : Type} (r : ReqResult) (f : Json → Except RaindropError α) : OpResult α :=
  ⟨r.calls, r.sleeps, r.logs,
   match r.outcome with
   | .ok data => f data
   | .error e => .error e⟩

namespace Client

/-- `RaindropAPI.getUser` (`src/unnamed/part_001` lines 240–243). -/
def getUser (dryRun : Bool) (outcomes : ℕ → FetchOutcome) (jitter : ℕ → ℚ) : OpResult Json :=
  afterRequest (request dryRun "GET" "/user" none outcomes jitter)
    (fun data => assertDefined (data.get "user") "user")

/-- `RaindropAPI.getCollection` (`src/unnamed/part_001` lines 265–268). -/
def getCollection (id : Int) (dryRun : Bool) (outcomes : ℕ → FetchOutcome)
    (jitter : ℕ → ℚ) : OpResult Json :=
  afterRequest (request dryRun "GET" ("/collection/" ++ toString id) none outcomes jitter)
    (fun data => assertDefined (data.get "item") "collection")

/-- `RaindropAPI.createCollection` (`src/unnamed/part_001` lines 270–275). -/
def createCollection (body : List (String × Json)) (dryRun : Bool)
    (outcomes : ℕ → FetchOutcome) (jitter : ℕ → ℚ) : OpResult Json :=
  afterRequest (request dryRun "POST" "/collection" (some body) outcomes jitter)
    (fun data => assertDefined (data.get "item") "collection")

/-- `RaindropAPI.updateCollection` (`src/unnamed/part_001` lines 277–282). -/
def updateCollection (id : Int) (body : List (String × Json)) (dryRun : Bool)
    (outcomes : ℕ → FetchOutcome) (jitter : ℕ → ℚ) : OpResult Json :=
  afterRequest (request dryRun "PUT" ("/collection/" ++ toString id) (some body) outcomes jitter)
    (fun data => assertDefined (data.get "item") "collection")

/-- `RaindropAPI.getRaindrop` (`src/unnamed/part_001` lines 408–411). -/
def getRaindrop (id : Int) (dryRun : Bool) (outcomes : ℕ → FetchOutcome)
    (jitter : ℕ → ℚ) : OpResult Json :=
  afterRequest (request dryRun "GET" ("/raindrop/" ++ toString id) none outcomes jitter)
    (fun data => assertDefined (data.get "item") "raindrop")

/-- `RaindropAPI.addRaindrop` (`src/unnamed/part_001` lines 413–418). -/
def addRaindrop (body : List (String × Json)) (dryRun : Bool)
    (outcomes : ℕ → FetchOutcome) (jitter : ℕ → ℚ) : OpResult Json :=
  afterRequest (request dryRun "POST" "/raindrop" (some body) outcomes jitter)
    (fun data => assertDefined (data.get "item") "raindrop")

/-- `RaindropAPI.updateRaindrop` (`src/unnamed/part_001` lines 420–425). -/
def updateRaindrop (id : Int) (body : List (String × Json)) (dryRun : Bool)
    (outcomes : ℕ → FetchOutcome) (jitter : ℕ → ℚ) : OpResult Json :=
  afterRequest (request dryRun "PUT" ("/raindrop/" ++ toString id) (some body) outcomes jitter)
    (fun data => assertDefined (data.get "item") "raindrop")

/-- `RaindropAPI.deleteRaindrop` (`src/unnamed/part_001` lines 427–430):
returns `data.result` with no definedness assertion. -/
def deleteRaindrop (id : Int) (dryRun : Bool) (outcomes : ℕ → FetchOutcome)
    (jitter : ℕ → ℚ) : OpResult (Option Json) :=
  afterRequest (request dryRun "DELETE" ("/raindrop/" ++ toString id) none outcomes jitter)
    (fun data => .ok (data.get "result"))

end Client

/-- A zod issue, rendered as the newest revision renders it: the dot-joined
path `i.path.join(".")` and the message. -/
abbrev Issue := String × String

/-- The type-tag name zod reports for a received JSON value. -/
def typeName : Json → String
  | .null => "null"
  | .bool _ => "boolean"
  | .num _ => "number"
  | .str _ => "string"
  | .arr _ => "array"
  | .obj _ => "object"

/-- Push a parent key onto every issue path, as zod does for nested fields. -/
def nestIssues (key : String) (issues : List Issue) : List Issue :=
  issues.map (fun pm => (if pm.1 = "" then key else key ++ "." ++ pm.1, pm.2))

/-- `z.number()`: accepts exactly JSON numbers. -/
def pNum : Json → Except (List Issue) Int
  | .num n => .ok n
  | j => .error [("", "Expected number, received " ++ typeName j)]

/-- `z.string()`: accepts exactly JSON strings. -/
def pStr : Json → Except (List Issue) String
  | .str s => .ok s
  | j => .error [("", "Expected string, received " ++ typeName j)]

/-- `z.boolean()`: accepts exactly JSON booleans. -/
def pBool : Json → Except (List Issue) Bool
  | .bool b => .ok b
  | j => .error [("", "Expected boolean, received " ++ typeName j)]

/-- Element-wise check of `z.array(z.string())`, collecting every failing
index with its position as the path component. -/
def collectStrings : List Json → ℕ → Except (List Issue) (List String)
  | [], _ => .ok []
  | x :: xs, i =>
    match (pStr x).mapError (nestIssues (toString i)), collectStrings xs (i + 1) with
    | .ok s, .ok rest => .ok (s :: rest)
    | .ok _, .error e => .error e
    | .error e, .ok _ => .error e
    | .error e1, .error e2 => .error (e1 ++ e2)

/-- `z.array(z.string())`. -/
def pStrArr : Json → Except (List Issue) (List String)
  | .arr xs => collectStrings xs 0
  | j => .error [("", "Expected array, received " ++ typeName j)]

/-- The `view` enum of `CollectionSchema`
(`src/src/api/schemas.ts` line 18). -/
inductive ViewMode where
  | list : ViewMode
  | simple : ViewMode
  | grid : ViewMode
  | masonry : ViewMode
deriving DecidableEq, Repr

/-- `z.enum(["list", "simple", "grid", "masonry"])`. -/
def pView : Json → Except (List Issue) ViewMode
  | .str "list" => .ok .list
  | .str "simple" => .ok .simple
  | .str "grid" => .ok .grid
  | .str "masonry" => .ok .masonry
  | _ => .error [("", "Invalid enum value")]

/-- Issue-accumulating conjunction: zod checks every key of an object schema
and reports all failures, in key order. -/
def zAnd {α β : Type} :
    Except (List Issue) α → Except (List Issue) β → Except (List Issue) (α × β)
  | .ok a, .ok b => .ok (a, b)
  | .ok _, .error e => .error e
  | .error e, .ok _ => .error e
  | .error e1, .error e2 => .error (e1 ++ e2)

/-- A required object-schema key: absence is the `Required` issue, presence
runs the field schema with the key pushed onto issue paths. -/
def pReq {α : Type} (fs : List (String × Json)) (key : String)
    (p : Json → Except (List Issue) α) : Except (List Issue) α :=
  match jLookup fs key with
  | none => .error [(key, "Required")]
  | some v => (p v).mapError (nestIssues key)

/-- A `.optional()` key: an absent key parses to `none`, but a present key —
explicit `null` included — runs the inner schema.  This is zod
`.optional()`, which tolerates only `undefined`, never `null`. -/
def pOpt {α : Type} (fs : List (String × Json)) (key : String)
    (p : Json → Except (List Issue) α) : Except (List Issue) (Option α) :=
  match jLookup fs key with
  | none => .ok none
  | some v => ((p v).mapError (nestIssues key)).map some

/-- The `parent` reference sub-schema `z.object({ $id: z.number() })`; the
Lean field `id` carries the source key `$id`. -/
structure ParentRef where
  id : Int
deriving DecidableEq, Repr

/-- `z.object({ $id: z.number() })`. -/
def pParentRef : Json → Except (List Issue) ParentRef
  | .obj fs => (pReq fs "$id" pNum).map ParentRef.mk
  | j => .error [("", "Expected object, received " ++ typeName j)]

/-- The parsed output of `CollectionSchema`
(`src/src/api/schemas.ts` lines 11–24), source field names kept. -/
structure Collection where
  _id : Int
  title : String
  count : Int
  parent : Option ParentRef
  cover : Option (List String)
  color : Option String
  view : Option ViewMode
  public : Option Bool
  expanded : Option Bool
  lastUpdate : Option String
  created : Option String
  sort : Option Int
deriving DecidableEq, Repr

/-- Field-by-field check of `CollectionSchema` on an object value, key order
as declared in `src/src/api/schemas.ts` lines 11–24. -/
def parseCollectionFields (fs : List (String × Json)) : Except (List Issue) Collection :=
  match zAnd (pReq fs "_id" pNum) (zAnd (pReq fs "title" pStr) (zAnd (pReq fs "count" pNum)
    (zAnd (pOpt fs "parent" pParentRef) (zAnd (pOpt fs "cover" pStrArr)
    (zAnd (pOpt fs "color" pStr) (zAnd (pOpt fs "view" pView)
    (zAnd (pOpt fs "public" pBool) (zAnd (pOpt fs "expanded" pBool)
    (zAnd (pOpt fs "lastUpdate" pStr) (zAnd (pOpt fs "created" pStr)
    (pOpt fs "sort" pNum))))))))))) with
  | .ok (a, b, c, d, e, f, g, h, i, k, l, m) => .ok (Collection.mk a b c d e f g h i k l m)
  | .error es => .error es

/-- `CollectionSchema.safeParse` on a decoded JSON value. -/
def parseCollection : Json → Except (List Issue) Collection
  | .obj fs => parseCollectionFields fs
  | j => .error [("", "Expected object, received " ++ typeName j)]

/-- The parsed output of `CollectionResponseSchema`
(`src/src/api/schemas.ts` lines 73–76). -/
structure CollectionResponse where
  result : Bool
  item : Collection
deriving DecidableEq, Repr

/-- `CollectionResponseSchema.safeParse` on a decoded JSON value. -/
def parseCollectionResponse : Json → Except (List Issue) CollectionResponse
  | .obj fs =>
    match zAnd (pReq fs "result" pBool) (pReq fs "item" parseCollection) with
    | .ok (r, it) => .ok (CollectionResponse.mk r it)
    | .error es => .error es
  | j => .error [("", "Expected object, received " ++ typeName j)]

/-- `result.error.issues.map((i) => ...).join(", ")` of `parseResponse` in the
newest client revision (embedded in `skills/raindrop/README.md`). -/
def joinIssues (issues : List Issue) : String :=
  String.intercalate ", " (issues.map (fun pm => pm.1 ++ ": " ++ pm.2))

/-- `parseResponse(schema, data, context)` of the newest client revision:
safeParse, then either the narrowed value or a terminal `RaindropError` whose
message lists every issue. -/
def parseResponse {α : Type} (parse : Json → Except (List Issue) α) (data : Json)
    (context : String) : Except RaindropError α :=
  match parse data with
  | .ok v => .ok v
  | .error issues =>
    .error (RaindropError.mk
      ("Invalid API response for " ++ context ++ ": " ++ joinIssues issues) 500 none)

namespace ClientV3

/-- `RaindropAPI.getCollection` of the newest client revision: request, then
`parseResponse(CollectionResponseSchema, data, "getCollection")`, then
`.item`. -/
def getCollection (id : Int) (dryRun : Bool) (outcomes : ℕ → FetchOutcome)
    (jitter : ℕ → ℚ) : OpResult Collection :=
  afterRequest (request dryRun "GET" ("/collection/" ++ toString id) none outcomes jitter)
    (fun data => (parseResponse parseCollectionResponse data "getCollection").map
      (fun r => r.item))

end ClientV3

/-- The `while (allItems.length < limit)` pagination loop of
`RaindropAPI.search` (`src/unnamed/part_001` lines 385–406), fuel-indexed.
`pages n` is the `data.items || []` array of the (always successful) request
for page `n`; the second component records each issued page request as
`(page, perpage)`.  Every recursive call grows the accumulator, so `search`
enters with fuel `limit + 1`, which the loop can never exhaust. -/
def searchLoop (pages : ℕ → List Json) (limit perPage : ℕ) :
    ℕ → List Json → ℕ → List (ℕ × ℕ) → List Json × List (ℕ × ℕ)
  | 0, acc, _, reqs => (acc, reqs)
  | fuel + 1, acc, page, reqs =>
    if acc.length < limit then
      let items := pages page
      let reqs2 := reqs ++ [(page, perPage)]
      if items.length = 0 then (acc, reqs2)
      else
        let remaining := limit - acc.length
        let acc2 := acc ++ items.take remaining
        if items.length < perPage then (acc2, reqs2)
        else searchLoop pages limit perPage fuel acc2 (page + 1) reqs2
    else (acc, reqs)

/-- `RaindropAPI.search` (`src/unnamed/part_001` lines 385–406):
`perPage = Math.min(limit, 50)`, pages accumulated from page `0`. -/
def search (pages : ℕ → List Json) (limit : ℕ) : List Json × List (ℕ × ℕ) :=
  searchLoop pages limit (min limit 50) (limit + 1) [] 0 []

/-- A transport outcome the retry loop treats as retryable per the claim: an
HTTP response with status `429` or `≥ 500`. -/
def retryResp (o : FetchOutcome) : Prop :=
  ∃ s ra text bj, o = .success s ra text bj ∧ (s = 429 ∨ 500 ≤ s)

/-- Outcome stream for the `Retry-After` counterexample: the first response is
a 429 whose `Retry-After` header is the unparsable string `"soon"`, the
second succeeds. -/
def c4Outcomes : ℕ → FetchOutcome := fun i =>
  if i = 0 then .success 429 (some "soon") "" (.ok Json.null)
  else .success 200 none "" (.ok (Json.obj []))

/-- Zero jitter stream for concrete evaluations. -/
def zeroJitter : ℕ → ℚ := fun _ => 0

/-- Five concrete bookmark items: one fully populated page at `limit = 5`. -/
def c8Items5 : List Json :=
  [.num 1, .num 2, .num 3, .num 4, .num 5]

/-- Page oracle where every page is fully populated for `perPage = 5`. -/
def c8Pages5 : ℕ → List Json := fun _ => c8Items5

/-- Twelve concrete bookmark items: one short page under `perPage = 50`. -/
def c8Items12 : List Json :=
  [.num 1, .num 2, .num 3, .num 4, .num 5, .num 6,
   .num 7, .num 8, .num 9, .num 10, .num 11, .num 12]

/-- Page oracle returning a 12-item first page and full 50-item pages after
it, so stopping after page 0 is observable. -/
def c8PagesShort : ℕ → List Json := fun n =>
  if n = 0 then c8Items12 else (List.range 50).map (fun i => .num (i : Int))

/-- The Collection payload of the null-tolerance test the repository ships
(`tests` block "accepts null for optional parent field"): explicit
`parent: null`. -/
def collectionWithNullParent : Json :=
  .obj [("_id", .num 123), ("title", .str "Test Collection"), ("count", .num 10),
        ("parent", Json.null)]

/-- The same Collection payload with `parent` entirely absent. -/
def collectionWithoutParent : Json :=
  .obj [("_id", .num 123), ("title", .str "Test Collection"), ("count", .num 10)]

/-- An uninterrupted run of retryable failures: 429, then 503, then 500. -/
def c1FailOutcomes : ℕ → FetchOutcome := fun i =>
  if i = 0 then .success 429 none "" (.ok Json.null)
  else if i = 1 then .success 503 none "" (.ok Json.null)
  else .success 500 none "" (.ok Json.null)

/-- Two retryable failures, then a decodable 200. -/
def c1MixOutcomes : ℕ → FetchOutcome := fun i =>
  if i = 0 then .success 429 none "" (.ok Json.null)
  else if i = 1 then .success 500 none "" (.ok Json.null)
  else .success 200 none "" (.ok (Json.obj [("result", Json.bool true)]))

/-- A 429 carrying `Retry-After: 30`, then a decodable 200. -/
def c4WitnessOutcomes : ℕ → FetchOutcome := fun i =>
  if i = 0 then .success 429 (some "30") "" (.ok Json.null)
  else .success 200 none "" (.ok (Json.obj []))

/-- A single 404 whose body is JSON with a server-supplied `errorMessage`. -/
def c6Outcomes : ℕ → FetchOutcome := fun _ =>
  .success 404 none "raw body"
    (.ok (Json.obj [("errorMessage", Json.str "Item not found")]))

/-- A retryable failure and then an attempt aborted by the timeout guard. -/
def c7Outcomes : ℕ → FetchOutcome := fun i =>
  if i = 0 then .success 429 none "" (.ok Json.null) else .abort

/-- A 2xx envelope that carries neither `user` nor `item`. -/
def c10Outcomes : ℕ → FetchOutcome := fun _ =>
  .success 200 none "" (.ok (Json.obj [("result", Json.bool true)]))

/-- A 2xx envelope whose `item` violates `CollectionSchema`: `title` and
`count` are missing. -/
def c3BadEnvelope : Json :=
  .obj [("result", .bool true), ("item", .obj [("_id", .num 5)])]

/-- Outcome stream returning the malformed envelope above with status 200. -/
def c3Outcomes : ℕ → FetchOutcome := fun _ =>
  .success 200 none "" (.ok c3BadEnvelope)

/-- A mutating-request body holding one ordinary key and one key that the
dry-run redaction must drop. -/
def c9Body : List (String × Json) :=
  [("title", Json.str "x"), ("accessToken", Json.str "secret")]

/-- A 2xx response whose body decodes ends the loop successfully, consuming
one `fetch` call and leaving the sleep log untouched. -/
theorem requestLoop_ok_step (outcomes : ℕ → FetchOutcome) (jitter : ℕ → ℚ)
    (fuel attempt c : ℕ) (sleeps : List JsNum)
    (s : ℕ) (ra : Option String) (text : String) (j : Json)
    (h : outcomes c = .success s ra text (.ok j)) (h2 : 200 ≤ s) (h3 : s ≤ 299)
    (ha : attempt < 3) :
    requestLoop outcomes jitter (fuel + 1) attempt c sleeps = ⟨c + 1, sleeps, .ok j⟩ := by
  have h429 : ¬ s = 429 := by omega
  have h500 : ¬ 500 ≤ s := by omega
  simp only [requestLoop, MAX_RETRIES, h]
  rw [if_pos ha, if_neg h429, if_neg h500, if_neg (not_not_intro ⟨h2, h3⟩)]

/-- A 429 below the ceiling sleeps the larger of the parsed `Retry-After`
delay and the exponential backoff, then loops with the attempt counter
incremented. -/
theorem requestLoop_429_step (outcomes : ℕ → FetchOutcome) (jitter : ℕ → ℚ)
    (fuel attempt c : ℕ) (sleeps : List JsNum)
    (ra : Option String) (text : String) (bj : Except String Json)
    (h : outcomes c = .success 429 ra text bj) (ha : attempt + 1 < 3) :
    requestLoop outcomes jitter (fuel + 1) attempt c sleeps =
      requestLoop outcomes jitter fuel (attempt + 1) (c + 1)
        (sleeps ++ [jsMax (jsScale (jsParseInt (retryAfterHeader ra)) 1000)
          (.val (calculateBackoff (attempt + 1) 1000 30000 (jitter c)))]) := by
  simp only [requestLoop, MAX_RETRIES, h]
  rw [if_pos (by omega : attempt < 3), if_pos True.intro, if_neg (by omega : ¬ 3 ≤ attempt + 1)]

/-- A 429 at the ceiling is the terminal rate-limit error. -/
theorem requestLoop_429_exhaust (outcomes : ℕ → FetchOutcome) (jitter : ℕ → ℚ)
    (fuel attempt c : ℕ) (sleeps : List JsNum)
    (ra : Option String) (text : String) (bj : Except String Json)
    (h : outcomes c = .success 429 ra text bj) (ha : attempt < 3) (ha2 : 3 ≤ attempt + 1) :
    requestLoop outcomes jitter (fuel + 1) attempt c sleeps =
      ⟨c + 1, sleeps, .error (RaindropError.mk "Rate limit exceeded. Maximum retries reached."
        429 (some "Wait a few minutes before trying again."))⟩ := by
  simp only [requestLoop, MAX_RETRIES, h]
  rw [if_pos ha, if_pos True.intro, if_pos ha2]

/-- A 5xx below the ceiling sleeps the exponential backoff and loops with the
attempt counter incremented. -/
theorem requestLoop_500_step (outcomes : ℕ → FetchOutcome) (jitter : ℕ → ℚ)
    (fuel attempt c : ℕ) (sleeps : List JsNum)
    (s : ℕ) (ra : Option String) (text : String) (bj : Except String Json)
    (h : outcomes c = .success s ra text bj) (h5 : 500 ≤ s) (ha : attempt + 1 < 3) :
    requestLoop outcomes jitter (fuel + 1) attempt c sleeps =
      requestLoop outcomes jitter fuel (attempt + 1) (c + 1)
        (sleeps ++ [.val (calculateBackoff (attempt + 1) 1000 30000 (jitter c))]) := by
  simp only [requestLoop, MAX_RETRIES, h]
  rw [if_pos (by omega : attempt < 3), if_neg (by omega : ¬ s = 429), if_pos h5,
    if_neg (by omega : ¬ 3 ≤ attempt + 1)]

/-- A 5xx at the ceiling is the terminal server error, carrying the status. -/
theorem requestLoop_500_exhaust (outcomes : ℕ → FetchOutcome) (jitter : ℕ → ℚ)
    (fuel attempt c : ℕ) (sleeps : List JsNum)
    (s : ℕ) (ra : Option String) (text : String) (bj : Except String Json)
    (h : outcomes c = .success s ra text bj) (h5 : 500 ≤ s) (ha : attempt < 3)
    (ha2 : 3 ≤ attempt + 1) :
    requestLoop outcomes jitter (fuel + 1) attempt c sleeps =
      ⟨c + 1, sleeps, .error (RaindropError.mk ("Server Error: " ++ toString s)
        s (some "The Raindrop.io server is experiencing issues. Try again later."))⟩ := by
  simp only [requestLoop, MAX_RETRIES, h]
  rw [if_pos ha, if_neg (by omega : ¬ s = 429), if_pos h5, if_pos ha2]

/-- A non-429 response outside both the 2xx and retryable ranges is the
immediate terminal API error with the extracted detail and the status hint. -/
theorem requestLoop_terminal_status (outcomes : ℕ → FetchOutcome) (jitter : ℕ → ℚ)
    (fuel attempt c : ℕ) (sleeps : List JsNum)
    (s : ℕ) (ra : Option String) (text : String) (bj : Except String Json)
    (h : outcomes c = .success s ra text bj) (h429 : s ≠ 429) (h5 : ¬ 500 ≤ s)
    (hnok : ¬ (200 ≤ s ∧ s ≤ 299)) (ha : attempt < 3) :
    requestLoop outcomes jitter (fuel + 1) attempt c sleeps =
      ⟨c + 1, sleeps, .error (RaindropError.mk
        ("API Error " ++ toString s ++ ": " ++ extractErrorDetail text bj)
        s (hintFor s))⟩ := by
  simp only [requestLoop, MAX_RETRIES, h]
  rw [if_pos ha, if_neg h429, if_neg h5, if_pos hnok]

/-- An aborted attempt (the timeout guard fired) is immediately terminal with
the synthesized 504 and the configured duration in the message. -/
theorem requestLoop_abort (outcomes : ℕ → FetchOutcome) (jitter : ℕ → ℚ)
    (fuel attempt c : ℕ) (sleeps : List JsNum)
    (h : outcomes c = .abort) (ha : attempt < 3) :
    requestLoop outcomes jitter (fuel + 1) attempt c sleeps =
      ⟨c + 1, sleeps, .error (RaindropError.mk
        ("Request timeout after " ++ toString REQUEST_TIMEOUT_MS ++ "ms")
        504 (some "The request took too long. Try again later."))⟩ := by
  simp only [requestLoop, MAX_RETRIES, h]
  rw [if_pos ha]

/-- The loop never forgets a performed `fetch`: the final call count is at
least the count it was entered with. -/
theorem requestLoop_calls_mono (outcomes : ℕ → FetchOutcome) (jitter : ℕ → ℚ) :
    ∀ fuel attempt c sleeps, c ≤ (requestLoop outcomes jitter fuel attempt c sleeps).calls := by
  intro fuel
  induction fuel with
  | zero => intro attempt c sleeps; simp [requestLoop]
  | succ n ih =>
    intro attempt c sleeps
    simp only [requestLoop]
    by_cases ha : attempt < MAX_RETRIES
    · rw [if_pos ha]
      cases h : outcomes c with
      | success status ra text bj =>
        cases bj with
        | ok j =>
          dsimp only
          split_ifs <;>
            first
              | (dsimp only; omega)
              | exact le_trans (Nat.le_succ c) (ih (attempt + 1) (c + 1) _)
        | error e =>
          dsimp only
          split_ifs <;>
            first
              | (dsimp only; omega)
              | exact le_trans (Nat.le_succ c) (ih (attempt + 1) (c + 1) _)
      | abort => dsimp only; omega
      | netfail e =>
        dsimp only
        split_ifs <;>
          first
            | (dsimp only; omega)
            | exact le_trans (Nat.le_succ c) (ih (attempt + 1) (c + 1) _)
    · rw [if_neg ha]

/-- With the dry-run interceptor off, `request` is exactly the retry loop
entered at attempt 0 with an empty sleep log. -/
theorem request_not_dry (method path : String) (body : Option (List (String × Json)))
    (outcomes : ℕ → FetchOutcome) (jitter : ℕ → ℚ) :
    request false method path body outcomes jitter =
      ⟨(requestLoop outcomes jitter MAX_RETRIES 0 0 []).calls,
       (requestLoop outcomes jitter MAX_RETRIES 0 0 []).sleeps, [],
       (requestLoop outcomes jitter MAX_RETRIES 0 0 []).outcome⟩ := by
  simp [request]

/-- Any retryable failure (429 or 5xx) below the ceiling sleeps once and
loops with the attempt counter incremented. -/
theorem requestLoop_retry_step (outcomes : ℕ → FetchOutcome) (jitter : ℕ → ℚ)
    (fuel attempt c : ℕ) (sleeps : List JsNum)
    (h : retryResp (outcomes c)) (ha : attempt + 1 < 3) :
    ∃ b, requestLoop outcomes jitter (fuel + 1) attempt c sleeps =
      requestLoop outcomes jitter fuel (attempt + 1) (c + 1) (sleeps ++ [b]) := by
  obtain ⟨s, ra, text, bj, heq, hcase⟩ := h
  rcases hcase with h429 | h500
  · subst h429
    exact ⟨_, requestLoop_429_step outcomes jitter fuel attempt c sleeps ra text bj heq ha⟩
  · exact ⟨_, requestLoop_500_step outcomes jitter fuel attempt c sleeps s ra text bj heq h500 ha⟩

/-- Any retryable failure at the ceiling is terminal, after one more
`fetch`. -/
theorem requestLoop_retry_exhaust (outcomes : ℕ → FetchOutcome) (jitter : ℕ → ℚ)
    (fuel attempt c : ℕ) (sleeps : List JsNum)
    (h : retryResp (outcomes c)) (ha : attempt < 3) (ha2 : 3 ≤ attempt + 1) :
    ∃ e, requestLoop outcomes jitter (fuel + 1) attempt c sleeps =
      ⟨c + 1, sleeps, .error e⟩ := by
  obtain ⟨s, ra, text, bj, heq, hcase⟩ := h
  rcases hcase with h429 | h500
  · subst h429
    exact ⟨_, requestLoop_429_exhaust outcomes jitter fuel attempt c sleeps ra text bj heq ha ha2⟩
  · exact ⟨_, requestLoop_500_exhaust outcomes jitter fuel attempt c sleeps s ra text bj heq h500 ha ha2⟩

/-- A first-attempt 2xx with a decodable body makes the whole `request` a
single-call success. -/
theorem request_first_ok (method path : String) (body : Option (List (String × Json)))
    (outcomes : ℕ → FetchOutcome) (jitter : ℕ → ℚ)
    (s : ℕ) (ra : Option String) (text : String) (j : Json)
    (h : outcomes 0 = .success s ra text (.ok j)) (h2 : 200 ≤ s) (h3 : s ≤ 299) :
    request false method path body outcomes jitter = ⟨1, [], [], .ok j⟩ := by
  have e : requestLoop outcomes jitter 3 0 0 [] = ⟨1, [], .ok j⟩ := by
    simpa using requestLoop_ok_step outcomes jitter 2 0 0 [] s ra text j h h2 h3 (by omega)
  simp [request, MAX_RETRIES, e]

/-- C1: a request whose transport outcomes are an uninterrupted run of 429 or
≥500 responses performs exactly 3 transport attempts and then raises a
terminal error; a request whose first two outcomes are such retryable
failures and whose third is a decodable 2xx succeeds on the 3rd attempt. -/
theorem request_retry_ceiling (method path : String) (body : Option (List (String × Json)))
    (outcomes : ℕ → FetchOutcome) (jitter : ℕ → ℚ) :
    ((∀ i, i < 3 → retryResp (outcomes i)) →
      (request false method path body outcomes jitter).calls = 3 ∧
      ∃ e, (request false method path body outcomes jitter).outcome = .error e) ∧
    (∀ s ra text j, retryResp (outcomes 0) → retryResp (outcomes 1) →
      outcomes 2 = .success s ra text (.ok j) → 200 ≤ s → s ≤ 299 →
      (request false method path body outcomes jitter).calls = 3 ∧
      (request false method path body outcomes jitter).outcome = .ok j) := by
  constructor
  · intro hall
    obtain ⟨b0, h0⟩ := requestLoop_retry_step outcomes jitter 2 0 0 [] (hall 0 (by omega)) (by omega)
    obtain ⟨b1, h1⟩ := requestLoop_retry_step outcomes jitter 1 1 1 ([] ++ [b0])
      (hall 1 (by omega)) (by omega)
    obtain ⟨e, h2⟩ := requestLoop_retry_exhaust outcomes jitter 0 2 2 (([] ++ [b0]) ++ [b1])
      (hall 2 (by omega)) (by omega) (by omega)
    have echain : requestLoop outcomes jitter MAX_RETRIES 0 0 [] =
        ⟨3, ([] ++ [b0]) ++ [b1], .error e⟩ := by
      show requestLoop outcomes jitter (2 + 1) 0 0 [] = _
      rw [h0]
      rw [show (2 : ℕ) = 1 + 1 from rfl, h1]
      rw [show (1 : ℕ) = 0 + 1 from rfl, h2]
    rw [request_not_dry, echain]
    exact ⟨rfl, e, rfl⟩
  · intro s ra text j hr0 hr1 h2xx hs1 hs2
    obtain ⟨b0, h0⟩ := requestLoop_retry_step outcomes jitter 2 0 0 [] hr0 (by omega)
    obtain ⟨b1, h1⟩ := requestLoop_retry_step outcomes jitter 1 1 1 ([] ++ [b0]) hr1 (by omega)
    have hok := requestLoop_ok_step outcomes jitter 0 2 2 (([] ++ [b0]) ++ [b1])
      s ra text j h2xx hs1 hs2 (by omega)
    have echain : requestLoop outcomes jitter MAX_RETRIES 0 0 [] =
        ⟨3, ([] ++ [b0]) ++ [b1], .ok j⟩ := by
      show requestLoop outcomes jitter (2 + 1) 0 0 [] = _
      rw [h0]
      rw [show (2 : ℕ) = 1 + 1 from rfl, h1]
      rw [show (1 : ℕ) = 0 + 1 from rfl, hok]
    rw [request_not_dry, echain]
    exact ⟨rfl, rfl⟩

/-- Witness for the retry ceiling: concrete 429/503/500 and 429/500/200
runs. -/
theorem request_retry_ceiling_witness :
    ((request false "GET" "/user" none c1FailOutcomes zeroJitter).calls = 3 ∧
      ∃ e, (request false "GET" "/user" none c1FailOutcomes zeroJitter).outcome = .error e) ∧
    ((request false "GET" "/user" none c1MixOutcomes zeroJitter).calls = 3 ∧
      (request false "GET" "/user" none c1MixOutcomes zeroJitter).outcome =
        .ok (Json.obj [("result", Json.bool true)])) :=
  ⟨(request_retry_ceiling "GET" "/user" none c1FailOutcomes zeroJitter).1 (fun i hi => by
      interval_cases i
      · exact ⟨429, none, "", .ok Json.null, rfl, Or.inl rfl⟩
      · exact ⟨503, none, "", .ok Json.null, rfl, Or.inr (by norm_num)⟩
      · exact ⟨500, none, "", .ok Json.null, rfl, Or.inr (by norm_num)⟩),
   (request_retry_ceiling "GET" "/user" none c1MixOutcomes zeroJitter).2 200 none ""
      (Json.obj [("result", Json.bool true)])
      ⟨429, none, "", .ok Json.null, rfl, Or.inl rfl⟩
      ⟨500, none, "", .ok Json.null, rfl, Or.inr le_rfl⟩
      rfl (by norm_num) (by norm_num)⟩

/-- C4 counterexample: with `Retry-After: soon` (present but unparsable) the
value slept is `NaN` — `parseInt` gives `NaN` and `Math.max` absorbs it — not
the claimed `max(10 * 1000, backoff)` that a default of 10 would give. -/
theorem retryAfter_unparsable_counterexample :
    (request false "GET" "/raindrops/0" none c4Outcomes zeroJitter).sleeps = [JsNum.nan] ∧
    jsParseInt "soon" = JsNum.nan ∧
    JsNum.nan ≠
      JsNum.val (max ((10 : ℚ) * 1000) (calculateBackoff 1 1000 30000 (zeroJitter 0))) := by
  refine ⟨by decide, rfl, ?_⟩
  intro h
  exact JsNum.noConfusion h

/-- C4 as amended: when the `Retry-After` header is absent it defaults to
`"10"`, and whenever the header string parses to an integer `r` the delay
slept before the next attempt is exactly `max(r * 1000, backoff)` — so
`Retry-After: 30` sleeps at least 30000 ms; a present-but-unparsable header
instead propagates `NaN` (the counterexample above). -/
theorem retryAfter_delay_precedence (outcomes : ℕ → FetchOutcome) (jitter : ℕ → ℚ)
    (fuel attempt c : ℕ) (sleeps : List JsNum)
    (ra : Option String) (text : String) (bj : Except String Json) (r : ℚ)
    (h : outcomes c = .success 429 ra text bj) (ha : attempt + 1 < 3)
    (hr : jsParseInt (retryAfterHeader ra) = .val r) :
    requestLoop outcomes jitter (fuel + 1) attempt c sleeps =
      requestLoop outcomes jitter fuel (attempt + 1) (c + 1)
        (sleeps ++ [.val (max (r * 1000) (calculateBackoff (attempt + 1) 1000 30000 (jitter c)))]) ∧
    jsParseInt (retryAfterHeader none) = JsNum.val 10 ∧
    (30 ≤ r → 30000 ≤ max (r * 1000) (calculateBackoff (attempt + 1) 1000 30000 (jitter c))) := by
  refine ⟨?_, rfl, ?_⟩
  · rw [requestLoop_429_step outcomes jitter fuel attempt c sleeps ra text bj h ha, hr]
    simp [jsScale, jsMax]
  · intro h30
    have h1 : (30000 : ℚ) ≤ r * 1000 := by linarith
    exact le_trans h1 (le_max_left _ _)

/-- Witness for the amended `Retry-After` precedence at a concrete 429 with
`Retry-After: 30`. -/
theorem retryAfter_delay_precedence_witness :
    (requestLoop c4WitnessOutcomes zeroJitter (2 + 1) 0 0 [] =
      requestLoop c4WitnessOutcomes zeroJitter 2 (0 + 1) (0 + 1)
        ([] ++ [.val (max ((30 : ℚ) * 1000) (calculateBackoff (0 + 1) 1000 30000 (zeroJitter 0)))]) ∧
    jsParseInt (retryAfterHeader none) = JsNum.val 10 ∧
    (30 ≤ (30 : ℚ) → 30000 ≤ max ((30 : ℚ) * 1000) (calculateBackoff (0 + 1) 1000 30000 (zeroJitter 0)))) :=
  retryAfter_delay_precedence c4WitnessOutcomes zeroJitter 2 0 0 []
    (some "30") "" (.ok Json.null) 30 rfl (by omega) (by decide)

/-- C6: a terminal 4xx other than 429 raises immediately after exactly one
transport attempt, with the server-supplied `errorMessage` when the body is
JSON carrying a nonempty one (else the raw body text) and the status-specific
hint. -/
theorem request_terminal_4xx (method path : String) (body : Option (List (String × Json)))
    (outcomes : ℕ → FetchOutcome) (jitter : ℕ → ℚ)
    (s : ℕ) (ra : Option String) (text : String) (bj : Except String Json)
    (h : outcomes 0 = .success s ra text bj) (h4 : 400 ≤ s) (h4b : s ≤ 499) (h429 : s ≠ 429) :
    (request false method path body outcomes jitter).calls = 1 ∧
    (request false method path body outcomes jitter).outcome =
      .error (RaindropError.mk
        ("API Error " ++ toString s ++ ": " ++ extractErrorDetail text bj) s (hintFor s)) ∧
    (∀ fs msg, bj = .ok (.obj fs) → jLookup fs "errorMessage" = some (.str msg) → msg ≠ "" →
      extractErrorDetail text bj = msg) ∧
    (∀ e, bj = .error e → extractErrorDetail text bj = text) ∧
    hintFor 401 = some "Authentication failed. Try running \x27raindrop login\x27 again." ∧
    hintFor 404 = some "The requested resource was not found. Verify the ID is correct." ∧
    hintFor 400 = some "Invalid request. Check your input parameters." := by
  have e : requestLoop outcomes jitter 3 0 0 [] =
      ⟨1, [], .error (RaindropError.mk
        ("API Error " ++ toString s ++ ": " ++ extractErrorDetail text bj) s (hintFor s))⟩ := by
    simpa using requestLoop_terminal_status outcomes jitter 2 0 0 [] s ra text bj
      h h429 (by omega) (by omega) (by omega)
  refine ⟨?_, ?_, ?_, ?_, rfl, rfl, rfl⟩
  · rw [request_not_dry]; simp [MAX_RETRIES, e]
  · rw [request_not_dry]; simp [MAX_RETRIES, e]
  · intro fs msg hbj hmsg hne
    subst hbj
    simp [extractErrorDetail, Json.get, hmsg, Json.truthy, Json.display, hne]
  · intro e2 hbj; subst hbj; rfl

/-- Witness for the non-retried 4xx at a concrete 404 whose body carries an
`errorMessage`. -/
theorem request_terminal_4xx_witness :
    (request false "GET" "/raindrop/7" none c6Outcomes zeroJitter).calls = 1 ∧
    (request false "GET" "/raindrop/7" none c6Outcomes zeroJitter).outcome =
      .error (RaindropError.mk
        ("API Error " ++ toString 404 ++ ": " ++ extractErrorDetail "raw body"
          (.ok (Json.obj [("errorMessage", Json.str "Item not found")])))
        404 (hintFor 404)) ∧
    extractErrorDetail "raw body"
      (.ok (Json.obj [("errorMessage", Json.str "Item not found")])) = "Item not found" := by
  have T := request_terminal_4xx "GET" "/raindrop/7" none c6Outcomes zeroJitter
    404 none "raw body" (.ok (Json.obj [("errorMessage", Json.str "Item not found")]))
    rfl (by norm_num) (by norm_num) (by norm_num)
  exact ⟨T.1, T.2.1, T.2.2.1 [("errorMessage", Json.str "Item not found")] "Item not found"
    rfl rfl (by decide)⟩

/-- C7: an attempt aborted by the per-attempt timeout guard is terminal
immediately — no further retry — with synthesized status 504 and the
configured 60000 ms duration in the message. -/
theorem request_timeout_terminal (method path : String) (body : Option (List (String × Json)))
    (outcomes : ℕ → FetchOutcome) (jitter : ℕ → ℚ) (k : ℕ)
    (hk : k < 3) (hpre : ∀ i, i < k → retryResp (outcomes i)) (habort : outcomes k = .abort) :
    (request false method path body outcomes jitter).calls = k + 1 ∧
    (request false method path body outcomes jitter).outcome =
      .error (RaindropError.mk
        ("Request timeout after " ++ toString REQUEST_TIMEOUT_MS ++ "ms") 504
        (some "The request took too long. Try again later.")) ∧
    REQUEST_TIMEOUT_MS = 60000 := by
  interval_cases k
  · have e : requestLoop outcomes jitter 3 0 0 [] =
        ⟨1, [], .error (RaindropError.mk
          ("Request timeout after " ++ toString REQUEST_TIMEOUT_MS ++ "ms") 504
          (some "The request took too long. Try again later."))⟩ := by
      simpa using requestLoop_abort outcomes jitter 2 0 0 [] habort (by omega)
    rw [request_not_dry]
    exact ⟨by simp [MAX_RETRIES, e], by simp [MAX_RETRIES, e], rfl⟩
  · obtain ⟨b0, h0⟩ := requestLoop_retry_step outcomes jitter 2 0 0 []
      (hpre 0 (by omega)) (by omega)
    have e1 := requestLoop_abort outcomes jitter 1 1 1 ([] ++ [b0]) habort (by omega)
    have echain : requestLoop outcomes jitter MAX_RETRIES 0 0 [] =
        ⟨2, [] ++ [b0], .error (RaindropError.mk
          ("Request timeout after " ++ toString REQUEST_TIMEOUT_MS ++ "ms") 504
          (some "The request took too long. Try again later."))⟩ := by
      show requestLoop outcomes jitter (2 + 1) 0 0 [] = _
      rw [h0]
      rw [show (2 : ℕ) = 1 + 1 from rfl, e1]
    rw [request_not_dry, echain]
    exact ⟨rfl, rfl, rfl⟩
  · obtain ⟨b0, h0⟩ := requestLoop_retry_step outcomes jitter 2 0 0 []
      (hpre 0 (by omega)) (by omega)
    obtain ⟨b1, h1⟩ := requestLoop_retry_step outcomes jitter 1 1 1 ([] ++ [b0])
      (hpre 1 (by omega)) (by omega)
    have e2 := requestLoop_abort outcomes jitter 0 2 2 (([] ++ [b0]) ++ [b1]) habort (by omega)
    have echain : requestLoop outcomes jitter MAX_RETRIES 0 0 [] =
        ⟨3, ([] ++ [b0]) ++ [b1], .error (RaindropError.mk
          ("Request timeout after " ++ toString REQUEST_TIMEOUT_MS ++ "ms") 504
          (some "The request took too long. Try again later."))⟩ := by
      show requestLoop outcomes jitter (2 + 1) 0 0 [] = _
      rw [h0]
      rw [show (2 : ℕ) = 1 + 1 from rfl, h1]
      rw [show (1 : ℕ) = 0 + 1 from rfl, e2]
    rw [request_not_dry, echain]
    exact ⟨rfl, rfl, rfl⟩

/-- Witness for the terminal timeout: one 429, then the guard fires on the
second attempt. -/
theorem request_timeout_terminal_witness :
    (request false "GET" "/user" none c7Outcomes zeroJitter).calls = 2 ∧
    (request false "GET" "/user" none c7Outcomes zeroJitter).outcome =
      .error (RaindropError.mk
        ("Request timeout after " ++ toString REQUEST_TIMEOUT_MS ++ "ms") 504
        (some "The request took too long. Try again later.")) ∧
    REQUEST_TIMEOUT_MS = 60000 := by
  have T := request_timeout_terminal "GET" "/user" none c7Outcomes zeroJitter 1 (by omega)
    (fun i hi => by
      interval_cases i
      exact ⟨429, none, "", .ok Json.null, rfl, Or.inl rfl⟩) rfl
  exact ⟨T.1, T.2.1, T.2.2⟩

/-- A 2xx whose body fails to decode falls into the generic catch: below the
ceiling it sleeps the backoff and loops. -/
theorem requestLoop_badjson_step (outcomes : ℕ → FetchOutcome) (jitter : ℕ → ℚ)
    (fuel attempt c : ℕ) (sleeps : List JsNum)
    (s : ℕ) (ra : Option String) (text : String) (e : String)
    (h : outcomes c = .success s ra text (.error e)) (h2 : 200 ≤ s) (h3 : s ≤ 299)
    (ha : attempt + 1 < 3) :
    requestLoop outcomes jitter (fuel + 1) attempt c sleeps =
      requestLoop outcomes jitter fuel (attempt + 1) (c + 1)
        (sleeps ++ [.val (calculateBackoff (attempt + 1) 1000 30000 (jitter c))]) := by
  simp only [requestLoop, MAX_RETRIES, h]
  rw [if_pos (by omega : attempt < 3), if_neg (by omega : ¬ s = 429),
    if_neg (by omega : ¬ 500 ≤ s), if_neg (not_not_intro ⟨h2, h3⟩),
    if_neg (by omega : ¬ 3 ≤ attempt + 1)]

/-- A transport rejection below the ceiling sleeps the backoff and loops. -/
theorem requestLoop_netfail_step (outcomes : ℕ → FetchOutcome) (jitter : ℕ → ℚ)
    (fuel attempt c : ℕ) (sleeps : List JsNum) (e : String)
    (h : outcomes c = .netfail e) (ha : attempt + 1 < 3) :
    requestLoop outcomes jitter (fuel + 1) attempt c sleeps =
      requestLoop outcomes jitter fuel (attempt + 1) (c + 1)
        (sleeps ++ [.val (calculateBackoff (attempt + 1) 1000 30000 (jitter c))]) := by
  simp only [requestLoop, MAX_RETRIES, h]
  rw [if_pos (by omega : attempt < 3), if_neg (by omega : ¬ 3 ≤ attempt + 1)]

/-- The first loop iteration always performs a `fetch`, whatever its
outcome. -/
theorem requestLoop_calls_pos (outcomes : ℕ → FetchOutcome) (jitter : ℕ → ℚ) :
    1 ≤ (requestLoop outcomes jitter 3 0 0 []).calls := by
  show 1 ≤ (requestLoop outcomes jitter (2 + 1) 0 0 []).calls
  cases h : outcomes 0 with
  | success s ra text bj =>
    by_cases h429 : s = 429
    · subst h429
      rw [requestLoop_429_step outcomes jitter 2 0 0 [] ra text bj h (by omega)]
      exact requestLoop_calls_mono outcomes jitter 2 (0 + 1) (0 + 1) _
    · by_cases h500 : 500 ≤ s
      · rw [requestLoop_500_step outcomes jitter 2 0 0 [] s ra text bj h h500 (by omega)]
        exact requestLoop_calls_mono outcomes jitter 2 (0 + 1) (0 + 1) _
      · by_cases hok : 200 ≤ s ∧ s ≤ 299
        · cases bj with
          | ok j =>
            rw [requestLoop_ok_step outcomes jitter 2 0 0 [] s ra text j h hok.1 hok.2
              (by omega)]
          | error e =>
            rw [requestLoop_badjson_step outcomes jitter 2 0 0 [] s ra text e h hok.1 hok.2
              (by omega)]
            exact requestLoop_calls_mono outcomes jitter 2 (0 + 1) (0 + 1) _
        · rw [requestLoop_terminal_status outcomes jitter 2 0 0 [] s ra text bj h h429 h500 hok
            (by omega)]
  | abort =>
    rw [requestLoop_abort outcomes jitter 2 0 0 [] h (by omega)]
  | netfail e =>
    rw [requestLoop_netfail_step outcomes jitter 2 0 0 [] e h (by omega)]
    exact requestLoop_calls_mono outcomes jitter 2 (0 + 1) (0 + 1) _

/-- C9: in dry-run mode a mutating verb performs no transport call, logs the
method, path and the token-redacted body view, and returns the synthetic
success envelope (`result` true; a bare success flag for DELETE); a GET still
runs the real transport path unchanged. -/
theorem request_dry_run_spec (method path : String) (body : Option (List (String × Json)))
    (outcomes : ℕ → FetchOutcome) (jitter : ℕ → ℚ) :
    ((method = "POST" ∨ method = "PUT" ∨ method = "DELETE") →
      (request true method path body outcomes jitter).calls = 0 ∧
      (request true method path body outcomes jitter).sleeps = [] ∧
      (request true method path body outcomes jitter).outcome =
        .ok (dryRunResponse method path) ∧
      (request true method path body outcomes jitter).logs =
        [LogEvent.line ("[DRY RUN] " ++ method ++ " " ++ path)] ++
          (match body with
           | some fields => [LogEvent.payload (fields.filter (fun kv => !keyIsToken kv.1))]
           | none => [])) ∧
    (∀ fields : List (String × Json), ∀ kv ∈ fields.filter (fun kv => !keyIsToken kv.1),
      keyIsToken kv.1 = false) ∧
    (dryRunResponse method path).get "result" = some (.bool true) ∧
    dryRunResponse "DELETE" path = .obj [("result", .bool true)] ∧
    request true "GET" path body outcomes jitter = request false "GET" path body outcomes jitter ∧
    1 ≤ (request true "GET" path body outcomes jitter).calls := by
  have hGET : request true "GET" path body outcomes jitter =
      request false "GET" path body outcomes jitter := by
    simp [request]
  refine ⟨?_, ?_, ?_, by simp [dryRunResponse], hGET, ?_⟩
  · intro hm
    rcases hm with h | h | h <;> subst h <;> exact ⟨by simp [request], by simp [request],
      by simp [request], by simp [request]⟩
  · intro fields kv hkv
    simpa using (List.mem_filter.mp hkv).2
  · unfold dryRunResponse
    split_ifs <;> rfl
  · rw [hGET, request_not_dry]
    simpa [MAX_RETRIES] using requestLoop_calls_pos outcomes jitter

/-- Witness for dry-run interception: a concrete DELETE with a body holding a
token-bearing key, and a concrete GET that still calls the transport. -/
theorem request_dry_run_spec_witness :
    (request true "DELETE" "/raindrop/9" (some c9Body) c10Outcomes zeroJitter).calls = 0 ∧
    (request true "DELETE" "/raindrop/9" (some c9Body) c10Outcomes zeroJitter).outcome =
      .ok (dryRunResponse "DELETE" "/raindrop/9") ∧
    (request true "DELETE" "/raindrop/9" (some c9Body) c10Outcomes zeroJitter).logs =
      [LogEvent.line ("[DRY RUN] " ++ "DELETE" ++ " " ++ "/raindrop/9")] ++
        [LogEvent.payload (c9Body.filter (fun kv => !keyIsToken kv.1))] ∧
    dryRunResponse "DELETE" "/raindrop/9" = .obj [("result", .bool true)] ∧
    1 ≤ (request true "GET" "/raindrop/9" (some c9Body) c10Outcomes zeroJitter).calls := by
  have T := request_dry_run_spec "DELETE" "/raindrop/9" (some c9Body) c10Outcomes zeroJitter
  have H := T.1 (Or.inr (Or.inr rfl))
  exact ⟨H.1, H.2.2.1, H.2.2.2, T.2.2.2.1, T.2.2.2.2.2⟩

/-- C10: when a 2xx envelope lacks the expected `user`/`item` payload (absent
or explicit null), every single-item operation raises the terminal 500
"Unexpected empty response" error instead of returning an empty value. -/
theorem singleItem_empty_envelope (outcomes : ℕ → FetchOutcome) (jitter : ℕ → ℚ)
    (fs : List (String × Json)) (s : ℕ) (ra : Option String) (text : String)
    (h : outcomes 0 = .success s ra text (.ok (.obj fs)))
    (h2 : 200 ≤ s) (h3 : s ≤ 299) :
    ((jLookup fs "user" = none ∨ jLookup fs "user" = some Json.null) →
      (Client.getUser false outcomes jitter).result =
        .error (RaindropError.mk "Unexpected empty response: user" 500 none)) ∧
    ((jLookup fs "item" = none ∨ jLookup fs "item" = some Json.null) →
      ∀ (id : Int) (body : List (String × Json)),
        (Client.getCollection id false outcomes jitter).result =
          .error (RaindropError.mk "Unexpected empty response: collection" 500 none) ∧
        (Client.createCollection body false outcomes jitter).result =
          .error (RaindropError.mk "Unexpected empty response: collection" 500 none) ∧
        (Client.updateCollection id body false outcomes jitter).result =
          .error (RaindropError.mk "Unexpected empty response: collection" 500 none) ∧
        (Client.getRaindrop id false outcomes jitter).result =
          .error (RaindropError.mk "Unexpected empty response: raindrop" 500 none) ∧
        (Client.addRaindrop body false outcomes jitter).result =
          .error (RaindropError.mk "Unexpected empty response: raindrop" 500 none) ∧
        (Client.updateRaindrop id body false outcomes jitter).result =
          .error (RaindropError.mk "Unexpected empty response: raindrop" 500 none)) := by
  have hr : ∀ (m p : String) (b : Option (List (String × Json))),
      request false m p b outcomes jitter = ⟨1, [], [], .ok (.obj fs)⟩ :=
    fun m p b => request_first_ok m p b outcomes jitter s ra text (.obj fs) h h2 h3
  constructor
  · intro hu
    have key : assertDefined (jLookup fs "user") "user" =
        .error (RaindropError.mk "Unexpected empty response: user" 500 none) := by
      rcases hu with h' | h' <;> rw [h'] <;> rfl
    simp [Client.getUser, afterRequest, hr, Json.get, key]
  · intro hi id body
    have keyC : assertDefined (jLookup fs "item") "collection" =
        .error (RaindropError.mk "Unexpected empty response: collection" 500 none) := by
      rcases hi with h' | h' <;> rw [h'] <;> rfl
    have keyR : assertDefined (jLookup fs "item") "raindrop" =
        .error (RaindropError.mk "Unexpected empty response: raindrop" 500 none) := by
      rcases hi with h' | h' <;> rw [h'] <;> rfl
    refine ⟨?_, ?_, ?_, ?_, ?_, ?_⟩ <;>
      simp [Client.getCollection, Client.createCollection, Client.updateCollection,
        Client.getRaindrop, Client.addRaindrop, Client.updateRaindrop,
        afterRequest, hr, Json.get, keyC, keyR]

/-- Witness for the empty-envelope guard at a concrete 200 envelope holding
only the success flag. -/
theorem singleItem_empty_envelope_witness :
    (Client.getUser false c10Outcomes zeroJitter).result =
      .error (RaindropError.mk "Unexpected empty response: user" 500 none) ∧
    (Client.getCollection 5 false c10Outcomes zeroJitter).result =
      .error (RaindropError.mk "Unexpected empty response: collection" 500 none) ∧
    (Client.addRaindrop [] false c10Outcomes zeroJitter).result =
      .error (RaindropError.mk "Unexpected empty response: raindrop" 500 none) := by
  have T := singleItem_empty_envelope c10Outcomes zeroJitter [("result", Json.bool true)]
    200 none "" rfl (by norm_num) (by norm_num)
  have B := T.2 (Or.inl rfl) 5 []
  exact ⟨T.1 (Or.inl rfl), B.1, B.2.2.2.2.1⟩

/-- C3: in the schema-validating client revision, a 2xx envelope is run
through `parseResponse` with the endpoint schema before its payload is used:
the operation result factors through validation, a failing value yields the
terminal 500 error whose message lists every violated field path, and a
passing value is returned narrowed. -/
theorem clientV3_getCollection_validates (id : Int) (outcomes : ℕ → FetchOutcome)
    (jitter : ℕ → ℚ) (s : ℕ) (ra : Option String) (text : String) (v : Json)
    (h : outcomes 0 = .success s ra text (.ok v)) (h2 : 200 ≤ s) (h3 : s ≤ 299) :
    (ClientV3.getCollection id false outcomes jitter).result =
      (parseResponse parseCollectionResponse v "getCollection").map (fun r => r.item) ∧
    (∀ issues, parseCollectionResponse v = .error issues →
      (ClientV3.getCollection id false outcomes jitter).result =
        .error (RaindropError.mk
          ("Invalid API response for getCollection: " ++ joinIssues issues) 500 none)) ∧
    (∀ r, parseCollectionResponse v = .ok r →
      (ClientV3.getCollection id false outcomes jitter).result = .ok r.item) := by
  have hreq := request_first_ok "GET" ("/collection/" ++ toString id) none outcomes jitter
    s ra text v h h2 h3
  refine ⟨?_, ?_, ?_⟩
  · simp [ClientV3.getCollection, afterRequest, hreq]
  · intro issues hiss
    simp [ClientV3.getCollection, afterRequest, hreq, parseResponse, hiss, Except.map]
  · intro r hr
    simp [ClientV3.getCollection, afterRequest, hreq, parseResponse, hr, Except.map]

/-- Witness for the validation pipeline at a concrete envelope whose `item`
is missing `title` and `count`: the error message lists both paths. -/
theorem clientV3_getCollection_validates_witness :
    (ClientV3.getCollection 5 false c3Outcomes zeroJitter).result =
      .error (RaindropError.mk
        ("Invalid API response for getCollection: " ++
          joinIssues [("item.title", "Required"), ("item.count", "Required")]) 500 none) ∧
    parseCollectionResponse c3BadEnvelope =
      .error [("item.title", "Required"), ("item.count", "Required")] := by
  have T := clientV3_getCollection_validates 5 c3Outcomes zeroJitter 200 none "" c3BadEnvelope
    rfl (by norm_num) (by norm_num)
  exact ⟨T.2.1 [("item.title", "Required"), ("item.count", "Required")] rfl, rfl⟩

/-- C2, against the code: `CollectionSchema` declares `parent` with zod
`.optional()`, which accepts an absent key but rejects an explicit
`parent: null` — the exact payload that the test the repository ships,
"accepts null for optional parent field", asserts must pass. -/
theorem collectionSchema_null_parent_bug :
    parseCollection collectionWithNullParent =
      .error [("parent", "Expected object, received null")] ∧
    parseCollection collectionWithoutParent =
      .ok (Collection.mk 123 "Test Collection" 10 none none none none none none none none none) := by
  constructor <;> rfl

/-- C5: the backoff calculator returns `min(base * 2^n + jitter, max)`; given
nonnegative configuration it is nonnegative, never exceeds `max`, and below
the cap it lies in `[base * 2^n, base * 2^n + 1000]`. -/
theorem calculateBackoff_spec (n : ℕ) (base maxMs jitter : ℚ)
    (_hn : 1 ≤ n) (hbase : 0 ≤ base) (hmax : 0 ≤ maxMs)
    (hj0 : 0 ≤ jitter) (hj1 : jitter < 1000) :
    calculateBackoff n base maxMs jitter = min (base * 2 ^ n + jitter) maxMs ∧
    0 ≤ calculateBackoff n base maxMs jitter ∧
    calculateBackoff n base maxMs jitter ≤ maxMs ∧
    (calculateBackoff n base maxMs jitter < maxMs →
      base * 2 ^ n ≤ calculateBackoff n base maxMs jitter ∧
      calculateBackoff n base maxMs jitter ≤ base * 2 ^ n + 1000) := by
  have hpow : (0 : ℚ) ≤ base * 2 ^ n := mul_nonneg hbase (by positivity)
  refine ⟨rfl, le_min (by linarith) hmax, min_le_right _ _, ?_⟩
  intro hlt
  have hxm : base * 2 ^ n + jitter < maxMs := by
    by_contra hge
    push_neg at hge
    have heq : calculateBackoff n base maxMs jitter = maxMs := min_eq_right hge
    rw [heq] at hlt
    exact lt_irrefl _ hlt
  have heq : calculateBackoff n base maxMs jitter = base * 2 ^ n + jitter :=
    min_eq_left (le_of_lt hxm)
  rw [heq]
  constructor <;> linarith

/-- Witness for the backoff bound at `n = 1`, defaults `(1000, 30000)` and
jitter `500`. -/
theorem calculateBackoff_spec_witness :
    calculateBackoff 1 1000 30000 500 = min ((1000 : ℚ) * 2 ^ 1 + 500) 30000 ∧
    (0 : ℚ) ≤ calculateBackoff 1 1000 30000 500 ∧
    calculateBackoff 1 1000 30000 500 ≤ 30000 ∧
    (calculateBackoff 1 1000 30000 500 < 30000 →
      (1000 : ℚ) * 2 ^ 1 ≤ calculateBackoff 1 1000 30000 500 ∧
      calculateBackoff 1 1000 30000 500 ≤ (1000 : ℚ) * 2 ^ 1 + 1000) :=
  calculateBackoff_spec 1 1000 30000 500 (by norm_num) (by norm_num) (by norm_num)
    (by norm_num) (by norm_num)

/-- The pagination loop never accumulates past the requested limit. -/
theorem searchLoop_length_le (pages : ℕ → List Json) (limit perPage : ℕ) :
    ∀ fuel acc page reqs, acc.length ≤ limit →
      (searchLoop pages limit perPage fuel acc page reqs).1.length ≤ limit := by
  intro fuel
  induction fuel with
  | zero => intro acc page reqs h; simpa [searchLoop] using h
  | succ n ih =>
    intro acc page reqs h
    simp only [searchLoop]
    by_cases h1 : acc.length < limit
    · rw [if_pos h1]
      by_cases h2 : (pages page).length = 0
      · rw [if_pos h2]; exact h
      · rw [if_neg h2]
        by_cases h3 : (pages page).length < perPage
        · rw [if_pos h3]
          simp only [List.length_append, List.length_take]
          omega
        · rw [if_neg h3]
          apply ih
          simp only [List.length_append, List.length_take]
          omega
    · rw [if_neg h1]; exact h

/-- Each issued page request advances the page offset by one and carries the
fixed `perpage`. -/
theorem searchLoop_reqs_pages (pages : ℕ → List Json) (limit perPage : ℕ) :
    ∀ fuel acc page reqs, ∃ k,
      (searchLoop pages limit perPage fuel acc page reqs).2 =
        reqs ++ (List.range k).map (fun i => (page + i, perPage)) := by
  intro fuel
  induction fuel with
  | zero => intro acc page reqs; exact ⟨0, by simp [searchLoop]⟩
  | succ n ih =>
    intro acc page reqs
    simp only [searchLoop]
    by_cases h1 : acc.length < limit
    · rw [if_pos h1]
      by_cases h2 : (pages page).length = 0
      · rw [if_pos h2]
        exact ⟨1, by rw [List.range_succ]; simp⟩
      · rw [if_neg h2]
        by_cases h3 : (pages page).length < perPage
        · rw [if_pos h3]
          exact ⟨1, by rw [List.range_succ]; simp⟩
        · rw [if_neg h3]
          obtain ⟨k, hk⟩ := ih (acc ++ (pages page).take (limit - acc.length)) (page + 1)
            (reqs ++ [(page, perPage)])
          refine ⟨k + 1, ?_⟩
          rw [hk, List.range_succ_eq_map, List.map_cons, List.map_map]
          have hmap : (List.range k).map ((fun i => (page + i, perPage)) ∘ Nat.succ) =
              (List.range k).map (fun i => (page + 1 + i, perPage)) := by
            apply List.map_congr_left
            intro i _
            simp [Function.comp, Nat.add_assoc, Nat.add_comm, Nat.add_left_comm]
          rw [hmap]
          simp [List.append_assoc]
    · rw [if_neg h1]; exact ⟨0, by simp⟩

/-- C8: `search` truncates to at most the requested limit, requests pages of
size `min(limit, 50) ≤ 50` with the offset advancing by one from page 0,
issues exactly one 5-item request when `limit = 5` against fully populated
pages, and stops after one 12-item short page under `perPage = 50` even
though more data exists and the limit is larger. -/
theorem search_pagination_spec :
    (∀ pages limit, (search pages limit).1.length ≤ limit) ∧
    (∀ pages limit, ∃ k, (search pages limit).2 =
      (List.range k).map (fun i => (i, min limit 50))) ∧
    (∀ pages limit pg pp, (pg, pp) ∈ (search pages limit).2 → pp = min limit 50 ∧ pp ≤ 50) ∧
    search c8Pages5 5 = (c8Items5, [(0, 5)]) ∧
    search c8PagesShort 60 = (c8Items12, [(0, 50)]) := by
  have hreqs : ∀ pages limit, ∃ k, (search pages limit).2 =
      (List.range k).map (fun i => (i, min limit 50)) := by
    intro pages limit
    obtain ⟨k, hk⟩ := searchLoop_reqs_pages pages limit (min limit 50) (limit + 1) [] 0 []
    exact ⟨k, by simpa [search] using hk⟩
  refine ⟨?_, hreqs, ?_, rfl, rfl⟩
  · intro pages limit
    exact searchLoop_length_le pages limit (min limit 50) (limit + 1) [] 0 [] (by simp)
  · intro pages limit pg pp hmem
    obtain ⟨k, hk⟩ := hreqs pages limit
    rw [hk] at hmem
    simp only [List.mem_map, List.mem_range] at hmem
    obtain ⟨i, _, hi⟩ := hmem
    injection hi with hpg hpp
    subst hpp
    exact ⟨rfl, min_le_right _ _⟩

/-- Witness for the pagination contract at the concrete limit-5 scenario. -/
theorem search_pagination_spec_witness :
    (search c8Pages5 5).1.length ≤ 5 ∧
    ((5 : ℕ) = min 5 50 ∧ (5 : ℕ) ≤ 50) ∧
    search c8Pages5 5 = (c8Items5, [(0, 5)]) :=
  ⟨search_pagination_spec.1 c8Pages5 5,
   search_pagination_spec.2.2.1 c8Pages5 5 0 5 (by decide),
   search_pagination_spec.2.2.2.1⟩

end Raindrop
